import Mathlib

/-!
Shallow embedding of the `providers` package of poshgary/oauth2_proxy
(files `providers/github.go` and `providers/provider_data.go`).

HTTP transport is abstracted: each of the three GitHub endpoints the code
can call (list organizations, list teams, list emails) is modelled by a
`FetchResult` value supplied by the environment, carrying either a
transport error, a body-read error, or a response with an HTTP status
code, a raw body string, and the outcome of `json.Unmarshal` on that body.
The functions below mirror the Go control flow over these values, and
`GetEmailAddress` additionally returns the ordered list of endpoints it
issued requests to, so that call-ordering properties can be stated.
-/

namespace Providers

/-- Models Go's `url.URL` restricted to the fields the code sets
(`Scheme`, `Host`, `Path`); no query/fragment/user parts appear in the
URLs the code constructs. -/
structure URL where
  Scheme : String
  Host : String
  Path : String
deriving Repr, DecidableEq

/-- Models `url.URL.String()` for URLs of the simple shape above:
the zero URL renders as `""`, and a URL with scheme and host renders as
`scheme://hostpath`. -/
def URL.render (u : URL) : String :=
  (if u.Scheme = "" then "" else u.Scheme ++ "://") ++ u.Host ++ u.Path

/-- `ProviderData` from `providers/provider_data.go`. The Go struct holds
`*url.URL` pointers; they are modelled as plain `URL` values. -/
structure ProviderData where
  ProviderName : String
  ClientID : String
  ClientSecret : String
  LoginUrl : URL
  RedeemUrl : URL
  ProfileUrl : URL
  ValidateUrl : URL
  Scope : String
deriving Repr, DecidableEq

/-- `GitHubProvider` from `providers/github.go`: embeds `ProviderData`
and carries the configured organization and team constraints. -/
structure GitHubProvider where
  ProviderData : ProviderData
  Org : String
  Team : String
deriving Repr, DecidableEq

/-- Modelled from the spec: `SessionState` is defined outside the two
source files; per the spec it carries at minimum an opaque access token. -/
structure SessionState where
  AccessToken : String
deriving Repr, DecidableEq

/-- `NewGitHubProvider` from `providers/github.go`: sets the provider
name, defaults `LoginUrl`, `RedeemUrl`, `ValidateUrl` and `Scope` when
unset, and wraps the data in a `GitHubProvider` with empty org/team. -/
def NewGitHubProvider (p : ProviderData) : GitHubProvider :=
  let p := { p with ProviderName := "GitHub" }
  let p := if p.LoginUrl.render = "" then
      { p with LoginUrl := ⟨"https", "github.com", "/login/oauth/authorize"⟩ }
    else p
  let p := if p.RedeemUrl.render = "" then
      { p with RedeemUrl := ⟨"https", "github.com", "/login/oauth/access_token"⟩ }
    else p
  let p := if p.ValidateUrl.render = "" then
      { p with ValidateUrl := ⟨"https", "api.github.com", "/user/emails"⟩ }
    else p
  let p := if p.Scope = "" then { p with Scope := "user:email" } else p
  { ProviderData := p, Org := "", Team := "" }

/-- `SetOrgTeam` from `providers/github.go`: records the constraint and,
when either argument is non-empty, appends `" read:org"` to the scope. -/
def SetOrgTeam (p : GitHubProvider) (org team : String) : GitHubProvider :=
  let p := { p with Org := org, Team := team }
  if org ≠ "" ∨ team ≠ "" then
    { p with ProviderData :=
        { p.ProviderData with Scope := p.ProviderData.Scope ++ " read:org" } }
  else p

/-- One entry of the JSON array returned by the list-organizations
endpoint, as unmarshalled by `hasOrg` (field `login`). -/
structure OrgEntry where
  Login : String
deriving Repr, DecidableEq

/-- One entry of the JSON array returned by the list-teams endpoint, as
unmarshalled by `hasOrgAndTeam`: `name`, `slug`, and the nested
`organization.login`. -/
structure TeamEntry where
  Name : String
  Slug : String
  Org : OrgEntry
deriving Repr, DecidableEq

/-- One entry of the JSON array returned by the list-emails endpoint, as
unmarshalled by `GetEmailAddress`: `email` and `primary`. -/
structure EmailEntry where
  Email : String
  Primary : Bool
deriving Repr, DecidableEq

/-- The three endpoints the code can issue a GET request to, each
carrying the access token it was called with. -/
inductive Endpoint where
  | userOrgs (accessToken : String)
  | userTeams (accessToken : String)
  | userEmails (accessToken : String)
deriving Repr, DecidableEq

/-- The full URL string the code builds for each endpoint.
`url.Values.Encode` sorts keys (`access_token` before `limit`); query
escaping is the identity for the token strings considered here. -/
def Endpoint.url : Endpoint → String
  | .userOrgs t => "https://api.github.com/user/orgs?access_token=" ++ t ++ "&limit=100"
  | .userTeams t => "https://api.github.com/user/teams?access_token=" ++ t ++ "&limit=100"
  | .userEmails t => "https://api.github.com/user/emails?access_token=" ++ t

/-- Outcome of one HTTP GET as the Go code observes it: a transport error
from `Do`/`Get`, an error from `ioutil.ReadAll`, or a response with a
status code, raw body, and the result of `json.Unmarshal` on the body. -/
inductive FetchResult (α : Type) where
  | transportError (msg : String)
  | readError (msg : String)
  | response (status : Nat) (body : String) (parsed : Except String α)

/-- The environment a resolution runs against: what each endpoint would
return if called. -/
structure Env where
  orgsResult : FetchResult (List OrgEntry)
  teamsResult : FetchResult (List TeamEntry)
  emailsResult : FetchResult (List EmailEntry)

/-- The error string `fmt.Errorf("got %d from %q %s", status, endpoint,
body)` builds (for the endpoint URLs at hand, `%q` wraps in quotes). -/
def statusErr (status : Nat) (endpoint body : String) : String :=
  "got " ++ toString status ++ " from \"" ++ endpoint ++ "\" " ++ body

/-- `needle` occurs as a contiguous substring of `hay`. -/
def strHas (needle hay : String) : Prop :=
  needle.data <:+: hay.data

instance (n h : String) : Decidable (strHas n h) :=
  List.decidableInfix n.data h.data

/-- The loop at the end of `hasOrg`: true iff some entry's `login` equals
the configured org (Go: `if p.Org == org.Login { return true }`). -/
def orgListHasLogin (org : String) : List OrgEntry → Bool
  | [] => false
  | o :: rest => if org = o.Login then true else orgListHasLogin org rest

/-- The loop at the end of `hasOrgAndTeam`: true iff some entry has
`organization.login` equal to the configured org and the configured team
is empty or equals the entry's `slug`. -/
def teamListMatches (org team : String) : List TeamEntry → Bool
  | [] => false
  | t :: rest =>
    if org = t.Org.Login then
      if team = "" ∨ team = t.Slug then true else teamListMatches org team rest
    else teamListMatches org team rest

/-- The loop at the end of `GetEmailAddress`: the first entry whose
`primary` flag is true, if any. -/
def firstPrimary : List EmailEntry → Option EmailEntry
  | [] => none
  | e :: rest => if e.Primary then some e else firstPrimary rest

/-- `hasOrg` from `providers/github.go`, over an abstract fetch result.
Go returns `(bool, error)` with the bool always false alongside a
non-nil error; this is rendered as `Except String Bool`. The unmarshal
error is returned verbatim (`return false, err`). -/
def GitHubProvider.hasOrg (p : GitHubProvider) (accessToken : String)
    (r : FetchResult (List OrgEntry)) : Except String Bool :=
  match r with
  | .transportError e => .error e
  | .readError e => .error e
  | .response status body parsed =>
    if status ≠ 200 then
      .error (statusErr status (Endpoint.userOrgs accessToken).url body)
    else
      match parsed with
      | .error e => .error e
      | .ok orgs => .ok (orgListHasLogin p.Org orgs)

/-- `hasOrgAndTeam` from `providers/github.go`, over an abstract fetch
result. The unmarshal error is wrapped as
`fmt.Errorf("%s unmarshaling %s", err, body)`. -/
def GitHubProvider.hasOrgAndTeam (p : GitHubProvider) (accessToken : String)
    (r : FetchResult (List TeamEntry)) : Except String Bool :=
  match r with
  | .transportError e => .error e
  | .readError e => .error e
  | .response status body parsed =>
    if status ≠ 200 then
      .error (statusErr status (Endpoint.userTeams accessToken).url body)
    else
      match parsed with
      | .error e => .error (e ++ " unmarshaling " ++ body)
      | .ok teams => .ok (teamListMatches p.Org p.Team teams)

/-- The tail of `GetEmailAddress` after the membership gate: the email
request, status check, unmarshal, and primary-email scan, paired with
the one endpoint this phase calls. -/
def emailPhase (s : SessionState) (env : Env) :
    Except String String × List Endpoint :=
  (match env.emailsResult with
   | .transportError e => .error e
   | .readError e => .error e
   | .response status body parsed =>
     if status ≠ 200 then
       .error (statusErr status (Endpoint.userEmails s.AccessToken).url body)
     else
       match parsed with
       | .error e => .error (e ++ " unmarshaling " ++ body)
       | .ok emails =>
         match firstPrimary emails with
         | some en => .ok en.Email
         | none => .error "no email address found",
   [Endpoint.userEmails s.AccessToken])

/-- `GetEmailAddress` from `providers/github.go`: the membership gate
(team check when org and team are configured, org check when only org
is), then the email phase. Go's `return "", err` with `err = nil` after a
clean `false` from a check is `.ok ""`; every error return in the Go code
carries `""` as the string, so `Except String String` is faithful. The
second component records the endpoints called, in order. -/
def GitHubProvider.GetEmailAddress (p : GitHubProvider) (s : SessionState)
    (env : Env) : Except String String × List Endpoint :=
  if p.Org ≠ "" then
    if p.Team ≠ "" then
      match p.hasOrgAndTeam s.AccessToken env.teamsResult with
      | .error e => (.error e, [Endpoint.userTeams s.AccessToken])
      | .ok false => (.ok "", [Endpoint.userTeams s.AccessToken])
      | .ok true =>
        ((emailPhase s env).1,
          Endpoint.userTeams s.AccessToken :: (emailPhase s env).2)
    else
      match p.hasOrg s.AccessToken env.orgsResult with
      | .error e => (.error e, [Endpoint.userOrgs s.AccessToken])
      | .ok false => (.ok "", [Endpoint.userOrgs s.AccessToken])
      | .ok true =>
        ((emailPhase s env).1,
          Endpoint.userOrgs s.AccessToken :: (emailPhase s env).2)
  else emailPhase s env

/-- The membership gate of `GetEmailAddress` lets the email phase run:
either no org is configured, or the configured check returned a clean
`true`. -/
def gatePasses (p : GitHubProvider) (s : SessionState) (env : Env) : Prop :=
  p.Org = "" ∨
  (p.Team ≠ "" ∧ p.hasOrgAndTeam s.AccessToken env.teamsResult = .ok true) ∨
  (p.Team = "" ∧ p.hasOrg s.AccessToken env.orgsResult = .ok true)

/-- Counts occurrences of `pat` (at each starting position) in a
character list; used to state scope-token duplication. -/
def countOcc (pat : List Char) : List Char → Nat
  | [] => 0
  | c :: rest => (if pat.isPrefixOf (c :: rest) then 1 else 0) + countOcc pat rest

/-- A `ProviderData` with every field unset, as a construction input. -/
def pdEmpty : ProviderData :=
  ⟨"", "", "", ⟨"", "", ""⟩, ⟨"", "", ""⟩, ⟨"", "", ""⟩, ⟨"", "", ""⟩, ""⟩

end Providers

namespace Providers

theorem firstPrimary_eq_find (l : List EmailEntry) :
    firstPrimary l = l.find? (fun e => e.Primary) := by
  induction l with
  | nil => rfl
  | cons e rest ih => cases h : e.Primary <;> simp [firstPrimary, h, ih]

theorem orgListHasLogin_iff (org : String) (l : List OrgEntry) :
    orgListHasLogin org l = true ↔ ∃ o ∈ l, org = o.Login := by
  induction l with
  | nil => simp [orgListHasLogin]
  | cons o rest ih =>
    by_cases h : org = o.Login <;> simp [orgListHasLogin, h, ih]

theorem teamListMatches_iff (org team : String) (l : List TeamEntry) :
    teamListMatches org team l = true ↔
      ∃ t ∈ l, org = t.Org.Login ∧ (team = "" ∨ team = t.Slug) := by
  induction l with
  | nil => simp [teamListMatches]
  | cons t rest ih =>
    by_cases h1 : org = t.Org.Login
    · by_cases h2 : team = "" ∨ team = t.Slug
      · simp [teamListMatches, h1, h2]
      · simp only [teamListMatches, if_pos h1, if_neg h2, List.mem_cons]
        rw [ih]
        constructor
        · rintro ⟨a, ha, hp⟩; exact ⟨a, Or.inr ha, hp⟩
        · rintro ⟨a, ha | ha, hp⟩
          · subst ha; exact absurd hp.2 h2
          · exact ⟨a, ha, hp⟩
    · simp [teamListMatches, h1, ih]

theorem gate_result (p : GitHubProvider) (s : SessionState) (env : Env)
    (h : gatePasses p s env) :
    (p.GetEmailAddress s env).1 = (emailPhase s env).1 := by
  unfold GitHubProvider.GetEmailAddress
  rcases h with h | ⟨ht, hchk⟩ | ⟨ht, hchk⟩
  · simp [h]
  · by_cases ho : p.Org = ""
    · simp [ho]
    · simp [ho, ht, hchk]
  · by_cases ho : p.Org = ""
    · simp [ho]
    · simp [ho, ht, hchk]

theorem statusErr_carries (st : Nat) (e b : String) :
    strHas (toString st) (statusErr st e b) ∧ strHas e (statusErr st e b) ∧
      strHas b (statusErr st e b) := by
  refine ⟨⟨"got ".data, (" from \"" ++ e ++ "\" " ++ b).data, ?_⟩,
    ⟨("got " ++ toString st ++ " from \"").data, ("\" " ++ b).data, ?_⟩,
    ⟨("got " ++ toString st ++ " from \"" ++ e ++ "\" ").data, [], ?_⟩⟩ <;>
  simp [statusErr, String.data_append]

/-- C1: for an email list returned by the email endpoint, after the gate
passes, `GetEmailAddress` returns verbatim and with no error the email of
the first entry whose `primary` flag is true. -/
theorem C1_returns_first_primary_email (p : GitHubProvider) (s : SessionState)
    (env : Env) (body : String) (emails : List EmailEntry) (en : EmailEntry)
    (hgate : gatePasses p s env)
    (hresp : env.emailsResult = .response 200 body (.ok emails))
    (hfind : emails.find? (fun e => e.Primary) = some en) :
    (p.GetEmailAddress s env).1 = .ok en.Email := by
  rw [gate_result p s env hgate]
  simp [emailPhase, hresp, firstPrimary_eq_find, hfind]

theorem C1_witness :
    (GitHubProvider.GetEmailAddress ⟨pdEmpty, "", ""⟩ ⟨"tok"⟩
      ⟨.transportError "x", .transportError "x",
        .response 200 "b"
          (.ok [⟨"a@x.com", false⟩, ⟨"b@x.com", true⟩, ⟨"c@x.com", true⟩])⟩).1
      = .ok "b@x.com" :=
  C1_returns_first_primary_email ⟨pdEmpty, "", ""⟩ ⟨"tok"⟩ _ "b"
    [⟨"a@x.com", false⟩, ⟨"b@x.com", true⟩, ⟨"c@x.com", true⟩]
    ⟨"b@x.com", true⟩ (Or.inl rfl) rfl (by decide)

/-- C2: when no entry of the parsed email list is flagged primary,
`GetEmailAddress` fails with exactly the "no email address found" error,
regardless of how many non-primary entries the list contains. -/
theorem C2_no_primary_error (p : GitHubProvider) (s : SessionState)
    (env : Env) (body : String) (emails : List EmailEntry)
    (hgate : gatePasses p s env)
    (hresp : env.emailsResult = .response 200 body (.ok emails))
    (hnone : ∀ e ∈ emails, e.Primary = false) :
    (p.GetEmailAddress s env).1 = .error "no email address found" := by
  rw [gate_result p s env hgate]
  have hfind : emails.find? (fun e => e.Primary) = none := by
    simp [List.find?_eq_none]
    exact hnone
  simp [emailPhase, hresp, firstPrimary_eq_find, hfind]

theorem C2_witness :
    (GitHubProvider.GetEmailAddress ⟨pdEmpty, "", ""⟩ ⟨"tok"⟩
      ⟨.transportError "x", .transportError "x",
        .response 200 "b"
          (.ok [⟨"a@x.com", false⟩, ⟨"b@x.com", false⟩])⟩).1
      = .error "no email address found" :=
  C2_no_primary_error ⟨pdEmpty, "", ""⟩ ⟨"tok"⟩ _ "b"
    [⟨"a@x.com", false⟩, ⟨"b@x.com", false⟩] (Or.inl rfl) rfl (by decide)

/-- C3: on a successfully parsed organization list, `hasOrg` returns a
clean boolean: true iff some entry's `login` equals the configured `Org`
(case-sensitive), and false with no error when no entry matches. -/
theorem C3_hasOrg_iff (p : GitHubProvider) (tok body : String)
    (orgs : List OrgEntry) :
    (p.hasOrg tok (.response 200 body (.ok orgs)) = .ok true ↔
      ∃ o ∈ orgs, o.Login = p.Org) ∧
    ((∀ o ∈ orgs, o.Login ≠ p.Org) →
      p.hasOrg tok (.response 200 body (.ok orgs)) = .ok false) := by
  have hrun : p.hasOrg tok (.response 200 body (.ok orgs))
      = .ok (orgListHasLogin p.Org orgs) := by
    simp [GitHubProvider.hasOrg]
  constructor
  · rw [hrun]
    simp only [Except.ok.injEq]
    rw [orgListHasLogin_iff]
    constructor
    · rintro ⟨o, ho, he⟩; exact ⟨o, ho, he.symm⟩
    · rintro ⟨o, ho, he⟩; exact ⟨o, ho, he.symm⟩
  · intro hno
    rw [hrun]
    have : orgListHasLogin p.Org orgs = false := by
      by_contra hne
      have := (orgListHasLogin_iff p.Org orgs).1 (by simpa using hne)
      rcases this with ⟨o, ho, he⟩
      exact hno o ho he.symm
    rw [this]

theorem C3_witness :
    GitHubProvider.hasOrg ⟨pdEmpty, "acme", ""⟩ "tok"
      (.response 200 "b" (.ok [⟨"other"⟩, ⟨"acme"⟩])) = .ok true :=
  (C3_hasOrg_iff ⟨pdEmpty, "acme", ""⟩ "tok" "b" [⟨"other"⟩, ⟨"acme"⟩]).1.mpr
    ⟨⟨"acme"⟩, by decide, rfl⟩

/-- C4: on a successfully parsed team list, `hasOrgAndTeam` returns true
iff some entry has nested organization login equal to the configured
`Org` and the configured `Team` is empty or equal to the entry's `slug`;
the entry's `name` field plays no role. -/
theorem C4_hasOrgAndTeam_iff (p : GitHubProvider) (tok body : String)
    (teams : List TeamEntry) :
    (p.hasOrgAndTeam tok (.response 200 body (.ok teams)) = .ok true ↔
      ∃ t ∈ teams, t.Org.Login = p.Org ∧ (p.Team = "" ∨ p.Team = t.Slug)) ∧
    ((∀ t ∈ teams, ¬(t.Org.Login = p.Org ∧ (p.Team = "" ∨ p.Team = t.Slug))) →
      p.hasOrgAndTeam tok (.response 200 body (.ok teams)) = .ok false) := by
  have hrun : p.hasOrgAndTeam tok (.response 200 body (.ok teams))
      = .ok (teamListMatches p.Org p.Team teams) := by
    simp [GitHubProvider.hasOrgAndTeam]
  constructor
  · rw [hrun]
    simp only [Except.ok.injEq]
    rw [teamListMatches_iff]
    constructor
    · rintro ⟨t, ht, he, hs⟩; exact ⟨t, ht, he.symm, hs⟩
    · rintro ⟨t, ht, he, hs⟩; exact ⟨t, ht, he.symm, hs⟩
  · intro hno
    rw [hrun]
    have : teamListMatches p.Org p.Team teams = false := by
      by_contra hne
      have := (teamListMatches_iff p.Org p.Team teams).1 (by simpa using hne)
      rcases this with ⟨t, ht, he, hs⟩
      exact hno t ht ⟨he.symm, hs⟩
    rw [this]

theorem C4_witness :
    GitHubProvider.hasOrgAndTeam ⟨pdEmpty, "acme", "infra"⟩ "tok"
      (.response 200 "b"
        (.ok [⟨"Infra Team", "infra", ⟨"acme"⟩⟩])) = .ok true :=
  (C4_hasOrgAndTeam_iff ⟨pdEmpty, "acme", "infra"⟩ "tok" "b"
      [⟨"Infra Team", "infra", ⟨"acme"⟩⟩]).1.mpr
    ⟨⟨"Infra Team", "infra", ⟨"acme"⟩⟩, by decide, rfl, Or.inr rfl⟩

/-- C5: when both Org and Team are configured and the team check returns
false or an error, `GetEmailAddress` never issues the email-listing
request; it returns the underlying error, or an empty string with no
error when the check cleanly returned false. -/
theorem C5_team_gate_blocks_email (p : GitHubProvider) (s : SessionState)
    (env : Env) (horg : p.Org ≠ "") (hteam : p.Team ≠ "")
    (hfail : p.hasOrgAndTeam s.AccessToken env.teamsResult = .ok false ∨
      ∃ e, p.hasOrgAndTeam s.AccessToken env.teamsResult = .error e) :
    (p.GetEmailAddress s env).2 = [Endpoint.userTeams s.AccessToken] ∧
    (∀ t, Endpoint.userEmails t ∉ (p.GetEmailAddress s env).2) ∧
    (p.hasOrgAndTeam s.AccessToken env.teamsResult = .ok false →
      (p.GetEmailAddress s env).1 = .ok "") ∧
    (∀ e, p.hasOrgAndTeam s.AccessToken env.teamsResult = .error e →
      (p.GetEmailAddress s env).1 = .error e) := by
  rcases hfail with hchk | ⟨e, hchk⟩ <;>
  · simp [GitHubProvider.GetEmailAddress, horg, hteam, hchk]

theorem C5_witness :
    (GitHubProvider.GetEmailAddress ⟨pdEmpty, "acme", "infra"⟩ ⟨"tok"⟩
      ⟨.transportError "x",
        .response 200 "b" (.ok [⟨"Ops", "ops", ⟨"acme"⟩⟩]),
        .transportError "x"⟩).2 = [Endpoint.userTeams "tok"] ∧
    (GitHubProvider.GetEmailAddress ⟨pdEmpty, "acme", "infra"⟩ ⟨"tok"⟩
      ⟨.transportError "x",
        .response 200 "b" (.ok [⟨"Ops", "ops", ⟨"acme"⟩⟩]),
        .transportError "x"⟩).1 = .ok "" := by
  have h := C5_team_gate_blocks_email ⟨pdEmpty, "acme", "infra"⟩ ⟨"tok"⟩
    ⟨.transportError "x",
      .response 200 "b" (.ok [⟨"Ops", "ops", ⟨"acme"⟩⟩]),
      .transportError "x"⟩ (by decide) (by decide) (Or.inl rfl)
  exact ⟨h.1, h.2.2.1 rfl⟩

/-- C6 counterexample: constructing from a fully-unset configuration
leaves `ProfileUrl` unset (it renders as the empty string), so it is not
filled with any well-known default as the claim states. -/
theorem C6_counterexample :
    (NewGitHubProvider pdEmpty).ProviderData.ProfileUrl = ⟨"", "", ""⟩ ∧
    (NewGitHubProvider pdEmpty).ProviderData.ProfileUrl.render = "" := by
  decide

/-- C6 amended: `LoginUrl`, `RedeemUrl` and `ValidateUrl` are filled with
their documented defaults when unset and kept unchanged when set; an
unset `Scope` becomes "user:email" and a set one is kept; `ProfileUrl` is
always left unchanged (it is never defaulted). -/
theorem C6_construction_defaults (pd : ProviderData) :
    (pd.LoginUrl.render = "" →
      (NewGitHubProvider pd).ProviderData.LoginUrl
        = ⟨"https", "github.com", "/login/oauth/authorize"⟩) ∧
    (pd.LoginUrl.render ≠ "" →
      (NewGitHubProvider pd).ProviderData.LoginUrl = pd.LoginUrl) ∧
    (pd.RedeemUrl.render = "" →
      (NewGitHubProvider pd).ProviderData.RedeemUrl
        = ⟨"https", "github.com", "/login/oauth/access_token"⟩) ∧
    (pd.RedeemUrl.render ≠ "" →
      (NewGitHubProvider pd).ProviderData.RedeemUrl = pd.RedeemUrl) ∧
    (pd.ValidateUrl.render = "" →
      (NewGitHubProvider pd).ProviderData.ValidateUrl
        = ⟨"https", "api.github.com", "/user/emails"⟩) ∧
    (pd.ValidateUrl.render ≠ "" →
      (NewGitHubProvider pd).ProviderData.ValidateUrl = pd.ValidateUrl) ∧
    (pd.Scope = "" → (NewGitHubProvider pd).ProviderData.Scope = "user:email") ∧
    (pd.Scope ≠ "" → (NewGitHubProvider pd).ProviderData.Scope = pd.Scope) ∧
    (NewGitHubProvider pd).ProviderData.ProfileUrl = pd.ProfileUrl := by
  unfold NewGitHubProvider
  by_cases h1 : pd.LoginUrl.render = "" <;>
  by_cases h2 : pd.RedeemUrl.render = "" <;>
  by_cases h3 : pd.ValidateUrl.render = "" <;>
  by_cases h4 : pd.Scope = "" <;>
  simp_all

theorem C6_witness :
    (NewGitHubProvider pdEmpty).ProviderData.LoginUrl
      = ⟨"https", "github.com", "/login/oauth/authorize"⟩ ∧
    (NewGitHubProvider pdEmpty).ProviderData.Scope = "user:email" := by
  have h := C6_construction_defaults pdEmpty
  exact ⟨h.1 rfl, h.2.2.2.2.2.2.1 rfl⟩

theorem setOrgTeam_scope (g : GitHubProvider) (o t : String)
    (h : o ≠ "" ∨ t ≠ "") :
    (SetOrgTeam g o t).ProviderData.Scope
      = g.ProviderData.Scope ++ " read:org" := by
  simp only [SetOrgTeam]
  rw [if_pos h]

/-- C7 counterexample: calling `SetOrgTeam` twice with non-empty
arguments does produce the "read:org" token twice in the scope string. -/
theorem C7_counterexample :
    (SetOrgTeam (SetOrgTeam (NewGitHubProvider pdEmpty) "acme" "infra")
        "acme" "infra").ProviderData.Scope
      = "user:email read:org read:org" ∧
    countOcc "read:org".data
      ((SetOrgTeam (SetOrgTeam (NewGitHubProvider pdEmpty) "acme" "infra")
          "acme" "infra").ProviderData.Scope.data) = 2 := by
  decide

/-- C7 amended: `SetOrgTeam` appends " read:org" on every call with a
non-empty argument, so two such calls append the token twice; the
operation is not idempotent on the scope. -/
theorem C7_scope_appends_each_call (g : GitHubProvider) (o t o2 t2 : String)
    (h1 : o ≠ "" ∨ t ≠ "") (h2 : o2 ≠ "" ∨ t2 ≠ "") :
    (SetOrgTeam (SetOrgTeam g o t) o2 t2).ProviderData.Scope
      = g.ProviderData.Scope ++ " read:org" ++ " read:org" := by
  rw [setOrgTeam_scope _ o2 t2 h2, setOrgTeam_scope _ o t h1]

theorem C7_witness :
    (SetOrgTeam (SetOrgTeam ⟨pdEmpty, "", ""⟩ "acme" "infra")
        "acme" "infra").ProviderData.Scope = " read:org read:org" := by
  have h := C7_scope_appends_each_call ⟨pdEmpty, "", ""⟩ "acme" "infra"
    "acme" "infra" (Or.inl (by decide)) (Or.inl (by decide))
  rw [h]
  decide

/-- C8: a non-200 status on any of the three calls yields an error whose
message is exactly the formatted string carrying the status code, the
endpoint URL and the raw body, and the result is never a clean
boolean/email. -/
theorem C8_non200_errors (p : GitHubProvider) (s : SessionState) (env : Env)
    (tok body : String) (status : Nat)
    (po : Except String (List OrgEntry)) (pt : Except String (List TeamEntry))
    (pe : Except String (List EmailEntry))
    (hst : status ≠ 200) :
    (p.hasOrg tok (.response status body po)
        = .error (statusErr status (Endpoint.userOrgs tok).url body)) ∧
    (p.hasOrgAndTeam tok (.response status body pt)
        = .error (statusErr status (Endpoint.userTeams tok).url body)) ∧
    (env.emailsResult = .response status body pe → gatePasses p s env →
      (p.GetEmailAddress s env).1
        = .error (statusErr status (Endpoint.userEmails s.AccessToken).url body)) ∧
    (∀ ep, strHas (toString status) (statusErr status ep body) ∧
      strHas ep (statusErr status ep body) ∧
      strHas body (statusErr status ep body)) := by
  refine ⟨?_, ?_, ?_, fun ep => statusErr_carries status ep body⟩
  · simp [GitHubProvider.hasOrg, hst]
  · simp [GitHubProvider.hasOrgAndTeam, hst]
  · intro hresp hgate
    rw [gate_result p s env hgate]
    simp [emailPhase, hresp, hst]

theorem C8_witness :
    GitHubProvider.hasOrg ⟨pdEmpty, "", ""⟩ "tok"
      (.response 500 "oops" (.error "x"))
      = .error (statusErr 500 (Endpoint.userOrgs "tok").url "oops") ∧
    (GitHubProvider.GetEmailAddress ⟨pdEmpty, "", ""⟩ ⟨"tok"⟩
      ⟨.transportError "x", .transportError "x",
        .response 500 "oops" (.error "x")⟩).1
      = .error (statusErr 500 (Endpoint.userEmails "tok").url "oops") := by
  have h := C8_non200_errors ⟨pdEmpty, "", ""⟩ ⟨"tok"⟩
    ⟨.transportError "x", .transportError "x",
      .response 500 "oops" (.error "x")⟩
    "tok" "oops" 500 (.error "x") (.error "x") (.error "x") (by decide)
  exact ⟨h.1, h.2.2.1 rfl (Or.inl rfl)⟩

/-- C9 counterexample: a parse failure in `hasOrg` is returned verbatim,
so its error message does not include the raw response body. -/
theorem C9_counterexample :
    GitHubProvider.hasOrg ⟨pdEmpty, "acme", ""⟩ "tok"
      (.response 200 "the raw body" (.error "invalid character"))
      = .error "invalid character" ∧
    ¬ strHas "the raw body" "invalid character" :=
  ⟨rfl, by decide⟩

/-- C9 amended: a parse failure in `hasOrgAndTeam` or in the email
request of `GetEmailAddress` yields an error carrying both the parse
failure and the raw body; `hasOrg` returns the parse error alone,
without the raw body. -/
theorem C9_parse_failure_errors (p : GitHubProvider) (s : SessionState)
    (env : Env) (tok body perr : String) :
    (p.hasOrgAndTeam tok (.response 200 body (.error perr))
        = .error (perr ++ " unmarshaling " ++ body)) ∧
    (env.emailsResult = .response 200 body (.error perr) →
      gatePasses p s env →
      (p.GetEmailAddress s env).1 = .error (perr ++ " unmarshaling " ++ body)) ∧
    (p.hasOrg tok (.response 200 body (.error perr)) = .error perr) ∧
    strHas perr (perr ++ " unmarshaling " ++ body) ∧
    strHas body (perr ++ " unmarshaling " ++ body) := by
  refine ⟨by simp [GitHubProvider.hasOrgAndTeam], ?_,
    by simp [GitHubProvider.hasOrg], ?_, ?_⟩
  · intro hresp hgate
    rw [gate_result p s env hgate]
    simp [emailPhase, hresp]
  · exact ⟨[], (" unmarshaling " ++ body).data, by simp [String.data_append]⟩
  · exact ⟨(perr ++ " unmarshaling ").data, [], by simp [String.data_append]⟩

theorem C9_witness :
    GitHubProvider.hasOrgAndTeam ⟨pdEmpty, "acme", "infra"⟩ "tok"
      (.response 200 "rawbody" (.error "bad"))
      = .error ("bad" ++ " unmarshaling " ++ "rawbody") :=
  (C9_parse_failure_errors ⟨pdEmpty, "acme", "infra"⟩ ⟨"tok"⟩
    ⟨.transportError "x", .transportError "x", .transportError "x"⟩
    "tok" "rawbody" "bad").1

/-- C10: with Org empty, `GetEmailAddress` performs no membership check
even when Team is non-empty and goes straight to the email phase, while
`SetOrgTeam` with an empty org and a non-empty team still appends
" read:org" to the scope. -/
theorem C10_team_only_ignored (p : GitHubProvider) (s : SessionState)
    (env : Env) (g : GitHubProvider) (team : String)
    (horg : p.Org = "") (hteam : team ≠ "") :
    p.GetEmailAddress s env = emailPhase s env ∧
    (p.GetEmailAddress s env).2 = [Endpoint.userEmails s.AccessToken] ∧
    (∀ t, Endpoint.userOrgs t ∉ (p.GetEmailAddress s env).2) ∧
    (∀ t, Endpoint.userTeams t ∉ (p.GetEmailAddress s env).2) ∧
    (SetOrgTeam g "" team).ProviderData.Scope
      = g.ProviderData.Scope ++ " read:org" := by
  have h0 : p.GetEmailAddress s env = emailPhase s env := by
    simp [GitHubProvider.GetEmailAddress, horg]
  refine ⟨h0, ?_, ?_, ?_, setOrgTeam_scope g "" team (Or.inr hteam)⟩
  · rw [h0]; simp [emailPhase]
  · intro t; rw [h0]; simp [emailPhase]
  · intro t; rw [h0]; simp [emailPhase]

theorem C10_witness :
    (GitHubProvider.GetEmailAddress ⟨pdEmpty, "", "infra"⟩ ⟨"tok"⟩
      ⟨.transportError "x", .transportError "x",
        .response 200 "b" (.ok [⟨"a@x.com", true⟩])⟩).2
      = [Endpoint.userEmails "tok"] ∧
    (SetOrgTeam (NewGitHubProvider pdEmpty) "" "infra").ProviderData.Scope
      = "user:email read:org" := by
  have h := C10_team_only_ignored ⟨pdEmpty, "", "infra"⟩ ⟨"tok"⟩
    ⟨.transportError "x", .transportError "x",
      .response 200 "b" (.ok [⟨"a@x.com", true⟩])⟩
    (NewGitHubProvider pdEmpty) "infra" rfl (by decide)
  exact ⟨h.2.1, h.2.2.2.2.trans (by decide)⟩

end Providers
